import Mathlib

/-!
Verification of `nerc_tracker.py` (NERC One Stop Shop tracker).

Shallow embedding of the program's data model and operations:
* a cell of the parsed spreadsheet is `Option String` (`none` models a
  missing/NaN cell, `some s` models a value whose Python `str()` form is `s`);
* a row tuple is `List String`, a row set is `Finset (List String)`;
* `compute_row_set`, `build_diff_report`, `send_email` and `main` are
  translated statement by statement from the source; the pandas Excel parser
  (`bytes_to_dataframe`) is I/O-level and is passed as a function parameter
  where bytes appear;
* I/O actions of `send_email` and `main` are reified as action traces.
-/

namespace NercTracker

/-- A spreadsheet cell after parsing: `none` is a missing/NaN cell, `some s`
is a cell whose Python string form is `s`. -/
abbrev Cell := Option String

/-- A row tuple: the ordered list of normalized cell strings. -/
abbrev Row := List String

/-- A parsed tabular dataset: ordered rows of cells. -/
abbrev DF := List (List Cell)

/-- Raw spreadsheet bytes (content is opaque to the logic we verify). -/
abbrev ExcelBytes := List Nat

/-- Python `str(v)` after `df.fillna("")`: a missing cell became `""`,
any other cell is its string form. -/
def strCell : Cell → String
  | none => ""
  | some s => s

/-- One row of `compute_row_set`: `tuple(str(v).strip() for v in row.tolist())`. -/
def computeRowTuple (row : List Cell) : Row :=
  row.map (fun v => (strCell v).trim)

/-- `compute_row_set`: the set of normalized row tuples of a dataframe. -/
def compute_row_set (df : DF) : Finset Row :=
  (df.map computeRowTuple).toFinset

/-- Python `sep.join(parts)`. -/
def pyJoin (sep : String) : List String → String
  | [] => ""
  | [x] => x
  | x :: xs => x ++ sep ++ pyJoin sep xs

/-- `" | ".join(row)` — how one row is rendered in the report. -/
def renderRow (row : Row) : String := pyJoin " | " row

/-- Membership test of `needle` at each position: Python `needle in hay`
for strings, on the underlying character lists. -/
def infixB (needle : List Char) : List Char → Bool
  | [] => needle.isEmpty
  | c :: rest => needle.isPrefixOf (c :: rest) || infixB needle rest

/-- Python `needle in hay` for strings. -/
def strIn (needle hay : String) : Bool := infixB needle.data hay.data

/-- The exact sentinel line of line 90 of the source. -/
def sentinelLine : String :=
  "No row-level changes detected (files are identical at row level)."

/-- The substring tested by `main` (line 121) to classify changed/unchanged. -/
def needleText : String := "No row-level changes detected"

/-- `main`'s classification: `changed = "No row-level changes detected" not in report`. -/
def mainChanged (report : String) : Bool := !(strIn needleText report)

/-- The truncation notice `f"... ({total - max_sample} more {kind} rows)"`. -/
def truncLine (kind : String) (total maxSample : Nat) : String :=
  "... (" ++ Nat.repr (total - maxSample) ++ " more " ++ kind ++ " rows)"

/-- The `for i, row in enumerate(sorted(section))` loop of `build_diff_report`:
render each row until the index reaches `max_sample`, then emit the
truncation notice and stop. -/
def sampleLoop (kind : String) (total maxSample : Nat) : Nat → List Row → List String
  | _, [] => []
  | i, row :: rest =>
    if maxSample ≤ i then [truncLine kind total maxSample]
    else renderRow row :: sampleLoop kind total maxSample (i + 1) rest

/-- The sorted added/removed set of `Finset.sort`, modelling Python `sorted(s)`. -/
def sortRows (s : Finset Row) : List Row := s.sort (· ≤ ·)

/-- The row lines plus possible truncation line of one report section. -/
def sectionLines (kind : String) (s : Finset Row) (maxSample : Nat) : List String :=
  sampleLoop kind s.card maxSample 0 (sortRows s)

/-- `added = new_set - old_set` (line 62). -/
def addedSet (old_set new_set : Finset Row) : Finset Row := new_set \ old_set

/-- `removed = old_set - new_set` (line 63). -/
def removedSet (old_set new_set : Finset Row) : Finset Row := old_set \ new_set

/-- The four count lines and blank line of the report head (lines 66-70). -/
def countLines (old_set new_set : Finset Row) : List String :=
  [ "Total rows yesterday: " ++ Nat.repr old_set.card,
    "Total rows today    : " ++ Nat.repr new_set.card,
    "Rows added          : " ++ Nat.repr (addedSet old_set new_set).card,
    "Rows removed        : " ++ Nat.repr (removedSet old_set new_set).card,
    "" ]

/-- All lines of `build_diff_report` as a list, before the final join. -/
def buildDiffLines (old_set new_set : Finset Row) (maxSample : Nat) : List String :=
  countLines old_set new_set
    ++ (if (addedSet old_set new_set).Nonempty then
          "=== Added rows (sample) ===" ::
            sectionLines "added" (addedSet old_set new_set) maxSample ++ [""]
        else [])
    ++ (if (removedSet old_set new_set).Nonempty then
          "=== Removed rows (sample) ===" ::
            sectionLines "removed" (removedSet old_set new_set) maxSample
        else [])
    ++ (if ¬(addedSet old_set new_set).Nonempty ∧ ¬(removedSet old_set new_set).Nonempty
        then [sentinelLine] else [])

/-- `build_diff_report` from two row sets: `"\n".join(lines)`. -/
def reportOfSets (old_set new_set : Finset Row) (maxSample : Nat) : String :=
  pyJoin "\n" (buildDiffLines old_set new_set maxSample)

/-- `build_diff_report(old_bytes, new_bytes, max_sample)`, with the pandas
parser `bytes_to_dataframe` abstracted as the function `btd`. -/
def build_diff_report (btd : ExcelBytes → DF) (old_bytes new_bytes : ExcelBytes)
    (maxSample : Nat) : String :=
  reportOfSets (compute_row_set (btd old_bytes)) (compute_row_set (btd new_bytes)) maxSample

/-- `build_diff_report` applied directly to two parsed datasets. -/
def build_diff_report_df (old_df new_df : DF) (maxSample : Nat) : String :=
  reportOfSets (compute_row_set old_df) (compute_row_set new_df) maxSample

/-- The process environment slice read at module load: each field is
`os.environ.get` of the homonymous variable (`none` when unset). -/
structure PyEnv where
  gmailUser : Option String
  gmailPass : Option String
  recipientsVar : Option String
  deriving DecidableEq

/-- Python truthiness of an `os.environ.get` result: `None` and `""` are
falsy, every other string is truthy. -/
def pyTruthy : Option String → Bool
  | none => false
  | some s => !(s == "")

/-- The built-in default recipient string (lines 19-22). -/
def defaultRecipients : String :=
  "mikep@mcphersonpower.com,tommys@mcphersonpower.com"

/-- Python `s.split(",")` on the character list: splitting at every comma,
an empty input giving one empty field. -/
def pySplitComma : List Char → List (List Char)
  | [] => [[]]
  | c :: rest =>
    if c = ',' then [] :: pySplitComma rest
    else
      match pySplitComma rest with
      | [] => [[c]]
      | g :: gs => (c :: g) :: gs

/-- Python `s.split(",")` for strings. -/
def pySplitCommaStr (s : String) : List String :=
  (pySplitComma s.data).map String.mk

/-- `RECIPIENTS = os.environ.get("RECIPIENTS", default).split(",")`. -/
def RECIPIENTS (env : PyEnv) : List String :=
  pySplitCommaStr (env.recipientsVar.getD defaultRecipients)

/-- The observable steps of `send_email` after the credential check. -/
inductive SendAction where
  | buildMessage (subject toField body : String)
  | smtpConnect
  | starttls
  | login (user pass : String)
  | sendMessage
  deriving DecidableEq

/-- The exact message of the `RuntimeError` of line 97. -/
def configErrorMsg : String :=
  "GMAIL_USER or GMAIL_PASS environment variables are not set."

/-- `send_email(subject, body)`: the credential check of lines 96-97 runs
first; on failure nothing else happens, otherwise the message is built and
the SMTP steps run in order. Results are the performed actions together
with the raised error, if any. -/
def send_email (env : PyEnv) (subject body : String) :
    List SendAction × Option String :=
  if !(pyTruthy env.gmailUser) || !(pyTruthy env.gmailPass) then
    ([], some configErrorMsg)
  else
    ([ SendAction.buildMessage subject (pyJoin ", " (RECIPIENTS env)) body,
       SendAction.smtpConnect,
       SendAction.starttls,
       SendAction.login (env.gmailUser.getD "") (env.gmailPass.getD ""),
       SendAction.sendMessage ], none)

/-- The observable effects of one run of `main`. -/
inductive MainEffect where
  | download (payload : ExcelBytes)
  | readSnapshot (payload : ExcelBytes)
  | writeSnapshot (payload : ExcelBytes)
  | sendEmail (subject body : String)
  deriving DecidableEq

/-- Effect trace of `main()`: download, optional snapshot read and diff,
snapshot write, then the email send. `btd` abstracts the pandas parser,
`snapshotExists` models `SNAPSHOT_PATH.exists()`, `oldBytes` the stored
snapshot content, `newBytes` the downloaded payload, `todayStr` the
formatted UTC date. -/
def main_trace (btd : ExcelBytes → DF) (snapshotExists : Bool)
    (oldBytes newBytes : ExcelBytes) (todayStr : String) : List MainEffect :=
  if snapshotExists then
    let report := build_diff_report btd oldBytes newBytes 20
    let changed := mainChanged report
    let subject :=
      if changed then "[NERC One Stop Shop] Changes detected for " ++ todayStr
      else "[NERC One Stop Shop] No changes detected for " ++ todayStr
    let body :=
      "NERC One Stop Shop daily check for " ++ todayStr ++ ".\n\n" ++ report ++
        "\n\n--\nThis email was generated automatically by your NERC tracking bot."
    [ MainEffect.download newBytes,
      MainEffect.readSnapshot oldBytes,
      MainEffect.writeSnapshot newBytes,
      MainEffect.sendEmail subject body ]
  else
    let subject := "[NERC One Stop Shop] Initial snapshot stored (" ++ todayStr ++ ")"
    let body :=
      "This is the first run of the NERC One Stop Shop tracker.\n" ++
        "Today's file has been stored as the baseline. No diff to report yet.\n"
    [ MainEffect.download newBytes,
      MainEffect.writeSnapshot newBytes,
      MainEffect.sendEmail subject body ]

/-- Snapshot-file content after one effect: only `writeSnapshot` changes it. -/
def applyEffect (st : Option ExcelBytes) : MainEffect → Option ExcelBytes
  | MainEffect.writeSnapshot b => some b
  | _ => st

/-- Snapshot-file content after a list of effects. -/
def snapshotAfter (init : Option ExcelBytes) (effs : List MainEffect) :
    Option ExcelBytes :=
  effs.foldl applyEffect init

/-- The sampling loop renders the first `maxSample - i` rows and appends the
truncation notice exactly when rows remain beyond them. -/
theorem sampleLoop_eq_take (kind : String) (total m : Nat) :
    ∀ (l : List Row) (i : Nat),
      sampleLoop kind total m i l =
        (l.take (m - i)).map renderRow ++
          (if m - i < l.length then [truncLine kind total m] else []) := by
  intro l
  induction l with
  | nil => intro i; simp [sampleLoop]
  | cons row rest ih =>
    intro i
    by_cases hmi : m ≤ i
    · have h0 : m - i = 0 := Nat.sub_eq_zero_of_le hmi
      simp [sampleLoop, hmi, h0]
    · have h1 : m - i = (m - (i + 1)) + 1 := by omega
      simp only [sampleLoop, if_neg hmi, ih (i + 1), h1, List.take_succ_cons,
        List.map_cons, List.length_cons, List.cons_append, Nat.succ_lt_succ_iff]

/-- A prefix inclusion of character lists is an occurrence. -/
theorem prefix_to_sub {l1 l2 : List Char} (h : l1 <+: l2) : l1 <:+: l2 := by
  obtain ⟨t, ht⟩ := h
  exact ⟨[], t, by simpa using ht⟩

/-- A suffix inclusion of character lists is an occurrence. -/
theorem suffix_to_sub {l1 l2 : List Char} (h : l1 <:+ l2) : l1 <:+: l2 := by
  obtain ⟨s, hs⟩ := h
  exact ⟨s, [], by simpa using hs⟩

/-- The scanning membership test agrees with occurrence of `n` in `h`. -/
theorem infixB_iff (n : List Char) : ∀ h : List Char, infixB n h = true ↔ n <:+: h := by
  intro h
  induction h with
  | nil => simp [infixB, List.isEmpty_iff, List.infix_nil]
  | cons c rest ih => simp [infixB, ih, List.infix_cons_iff]

/-- Python `needle in hay` agrees with occurrence on the character lists. -/
theorem strIn_iff (needle hay : String) :
    strIn needle hay = true ↔ needle.data <:+: hay.data :=
  infixB_iff needle.data hay.data

/-- A list avoiding `c` that is a prefix of `xs ++ c :: ys` is a prefix of `xs`. -/
theorem prefix_through_append_cons {c : Char} :
    ∀ (xs n ys : List Char), c ∉ n → n <+: xs ++ c :: ys → n <+: xs := by
  intro xs
  induction xs with
  | nil =>
    intro n ys hc hp
    cases n with
    | nil => exact List.nil_prefix
    | cons a t =>
      rw [List.nil_append, List.cons_prefix_cons] at hp
      obtain ⟨rfl, -⟩ := hp
      exact absurd (List.mem_cons_self a t) hc
  | cons x xs ih =>
    intro n ys hc hp
    cases n with
    | nil => exact List.nil_prefix
    | cons a t =>
      rw [List.cons_append, List.cons_prefix_cons] at hp
      obtain ⟨rfl, ht⟩ := hp
      exact List.cons_prefix_cons.2
        ⟨rfl, ih t ys (fun hm => hc (List.mem_cons_of_mem a hm)) ht⟩

/-- An occurrence of a nonempty `c`-free list in `xs ++ c :: ys` lies wholly
inside `xs` or wholly inside `ys`. -/
theorem infix_split_append_cons {c : Char} :
    ∀ (xs : List Char) {n ys : List Char}, c ∉ n → n ≠ [] →
      n <:+: xs ++ c :: ys → n <:+: xs ∨ n <:+: ys := by
  intro xs
  induction xs with
  | nil =>
    intro n ys hc hne h
    rw [List.nil_append, List.infix_cons_iff] at h
    rcases h with hp | hi
    · cases n with
      | nil => exact absurd rfl hne
      | cons a t =>
        rw [List.cons_prefix_cons] at hp
        obtain ⟨rfl, -⟩ := hp
        exact absurd (List.mem_cons_self a t) hc
    · exact Or.inr hi
  | cons x xs ih =>
    intro n ys hc hne h
    rw [List.cons_append, List.infix_cons_iff] at h
    rcases h with hp | hi
    · have hx : n <+: x :: xs :=
        prefix_through_append_cons (x :: xs) n ys hc (by rwa [List.cons_append])
      exact Or.inl (prefix_to_sub hx)
    · rcases ih hc hne hi with h1 | h2
      · exact Or.inl (List.IsInfix.trans h1 (suffix_to_sub (List.suffix_cons x xs)))
      · exact Or.inr h2

/-- Character-list form of `"\n".join` on at least two lines. -/
theorem data_pyJoin_cons (x y : String) (t : List String) :
    (pyJoin "\n" (x :: y :: t)).data =
      x.data ++ '\n' :: (pyJoin "\n" (y :: t)).data := by
  rw [show pyJoin "\n" (x :: y :: t) = x ++ "\n" ++ pyJoin "\n" (y :: t) from rfl,
    String.data_append, String.data_append]
  simp

/-- Every line occurs in the joined report text. -/
theorem line_infix_pyJoin :
    ∀ (lines : List String) (l : String), l ∈ lines →
      l.data <:+: (pyJoin "\n" lines).data := by
  intro lines
  induction lines with
  | nil => intro l h; exact absurd h (List.not_mem_nil l)
  | cons x rest ih =>
    intro l hl
    cases rest with
    | nil =>
      rcases List.mem_cons.1 hl with rfl | h'
      · exact List.infix_refl l.data
      · exact absurd h' (List.not_mem_nil l)
    | cons y t =>
      rw [data_pyJoin_cons]
      rcases List.mem_cons.1 hl with rfl | h'
      · exact prefix_to_sub (List.prefix_append l.data _)
      · exact List.IsInfix.trans (ih l h')
          (suffix_to_sub (List.IsSuffix.trans (List.suffix_cons '\n' _)
            (List.suffix_append x.data _)))

/-- A newline-free nonempty needle occurs in the joined text iff it occurs in
one of the lines. -/
theorem infix_pyJoin_iff {n : List Char} (hnl : ('\n' : Char) ∉ n) (hne : n ≠ []) :
    ∀ lines : List String,
      (n <:+: (pyJoin "\n" lines).data ↔ ∃ l ∈ lines, n <:+: l.data) := by
  intro lines
  induction lines with
  | nil =>
    constructor
    · intro h; exact absurd (List.infix_nil.1 h) hne
    · rintro ⟨l, hl, -⟩; exact absurd hl (List.not_mem_nil l)
  | cons x rest ih =>
    cases rest with
    | nil =>
      constructor
      · intro h; exact ⟨x, List.mem_cons_self x [], h⟩
      · rintro ⟨l, hl, hli⟩
        rcases List.mem_cons.1 hl with rfl | h'
        · exact hli
        · exact absurd h' (List.not_mem_nil l)
    | cons y t =>
      rw [data_pyJoin_cons]
      constructor
      · intro h
        rcases infix_split_append_cons x.data hnl hne h with h1 | h2
        · exact ⟨x, List.mem_cons_self x _, h1⟩
        · obtain ⟨l, hl, hli⟩ := ih.1 h2
          exact ⟨l, List.mem_cons_of_mem x hl, hli⟩
      · rintro ⟨l, hl, hli⟩
        rcases List.mem_cons.1 hl with rfl | h'
        · exact List.IsInfix.trans hli (prefix_to_sub (List.prefix_append l.data _))
        · exact List.IsInfix.trans (ih.2 ⟨l, h', hli⟩)
            (suffix_to_sub (List.IsSuffix.trans (List.suffix_cons '\n' _)
              (List.suffix_append x.data _)))

/-- No decimal digit character is the letter `N`. -/
theorem digitChar_ne_N (m : Nat) (hm : m < 10) : Nat.digitChar m ≠ 'N' := by
  interval_cases m <;> decide

/-- Every character emitted by base-10 `Nat.toDigitsCore` is a decimal digit
character or comes from the accumulator. -/
theorem toDigitsCore_mem :
    ∀ (fuel n : Nat) (acc : List Char) (c : Char),
      c ∈ Nat.toDigitsCore 10 fuel n acc →
        (∃ m, m < 10 ∧ c = Nat.digitChar m) ∨ c ∈ acc := by
  intro fuel
  induction fuel with
  | zero => intro n acc c h; exact Or.inr h
  | succ fuel ih =>
    intro n acc c h
    have hlt : n % 10 < 10 := Nat.mod_lt n (by omega)
    simp only [Nat.toDigitsCore] at h
    split at h
    · rcases List.mem_cons.1 h with rfl | h'
      · exact Or.inl ⟨n % 10, hlt, rfl⟩
      · exact Or.inr h'
    · rcases ih (n / 10) (Nat.digitChar (n % 10) :: acc) c h with h1 | h2
      · exact Or.inl h1
      · rcases List.mem_cons.1 h2 with rfl | h'
        · exact Or.inl ⟨n % 10, hlt, rfl⟩
        · exact Or.inr h'

/-- The decimal representation of a natural number never contains `N`. -/
theorem repr_no_N (n : Nat) : ('N' : Char) ∉ (Nat.repr n).data := by
  intro h
  rcases toDigitsCore_mem (n + 1) n [] 'N' h with ⟨m, hm, he⟩ | h2
  · exact digitChar_ne_N m hm he.symm
  · exact List.not_mem_nil 'N' h2

/-- The sentinel-test needle cannot occur in `N`-free text. -/
theorem needle_not_infix_of_N_free {cs : List Char} (h : ('N' : Char) ∉ cs) :
    ¬ needleText.data <:+: cs :=
  fun hin => h (List.IsInfix.subset hin (by decide))

/-- Concatenation preserves freedom from `N`. -/
theorem N_free_append {a b : List Char} (ha : ('N' : Char) ∉ a)
    (hb : ('N' : Char) ∉ b) : ('N' : Char) ∉ a ++ b :=
  fun h => (List.mem_append.1 h).elim ha hb

/-- C1: the diff of `build_diff_report` is set difference on each side —
`added A B` holds the rows of `B` absent from `A`, `removed A B` the rows of
`A` absent from `B`, and the two sets are disjoint. -/
theorem diff_added_removed_spec (A B : Finset Row) :
    (∀ r : Row, r ∈ addedSet A B ↔ r ∈ B ∧ r ∉ A) ∧
    (∀ r : Row, r ∈ removedSet A B ↔ r ∈ A ∧ r ∉ B) ∧
    addedSet A B ∩ removedSet A B = ∅ := by
  refine ⟨fun r => Finset.mem_sdiff, fun r => Finset.mem_sdiff, ?_⟩
  ext r
  simp only [addedSet, removedSet, Finset.mem_inter, Finset.mem_sdiff,
    Finset.not_mem_empty, iff_false]
  tauto

/-- C5: a missing/NaN cell and an explicit empty-string cell in the same
position normalize to the same trimmed value, so the two rows have equal
row tuples, `compute_row_set` identifies them, and the diff of the two
singleton datasets is empty on both sides. -/
theorem missing_cell_eq_empty_string (pre post : List Cell) (df : DF) :
    computeRowTuple (pre ++ none :: post) = computeRowTuple (pre ++ some "" :: post) ∧
    compute_row_set ((pre ++ none :: post) :: df) =
      compute_row_set ((pre ++ some "" :: post) :: df) ∧
    addedSet (compute_row_set [pre ++ none :: post])
      (compute_row_set [pre ++ some "" :: post]) = ∅ ∧
    removedSet (compute_row_set [pre ++ none :: post])
      (compute_row_set [pre ++ some "" :: post]) = ∅ := by
  have h : computeRowTuple (pre ++ none :: post) =
      computeRowTuple (pre ++ some "" :: post) := by
    simp [computeRowTuple, strCell]
  have h3 : compute_row_set [pre ++ none :: post] =
      compute_row_set [pre ++ some "" :: post] := by
    simp [compute_row_set, h]
  refine ⟨h, by simp [compute_row_set, h], ?_, ?_⟩ <;>
    simp [addedSet, removedSet, h3, Finset.sdiff_self]

/-- C9: a credential set to the empty string is treated exactly like an
unset one — `send_email` behaves identically on the two environments and
raises the configuration error even though the variable exists. -/
theorem empty_credential_treated_as_absent (u p r : Option String) (s b : String) :
    send_email ⟨some "", p, r⟩ s b = send_email ⟨none, p, r⟩ s b ∧
    send_email ⟨u, some "", r⟩ s b = send_email ⟨u, none, r⟩ s b ∧
    (send_email ⟨some "", p, r⟩ s b).2 = some configErrorMsg ∧
    (⟨some "", p, r⟩ : PyEnv).gmailUser ≠ none ∧
    pyTruthy (some "") = pyTruthy none := by
  refine ⟨?_, ?_, ?_, by simp, rfl⟩ <;> simp [send_email, pyTruthy]

/-- C10: with `RECIPIENTS` set to the empty string the recipient list is the
single empty-string address, not the built-in default pair, which is used
only when the variable is entirely unset. -/
theorem recipients_empty_override (u p : Option String) :
    RECIPIENTS ⟨u, p, some ""⟩ = [""] ∧
    RECIPIENTS ⟨u, p, none⟩ =
      ["mikep@mcphersonpower.com", "tommys@mcphersonpower.com"] ∧
    RECIPIENTS ⟨u, p, some ""⟩ ≠ RECIPIENTS ⟨u, p, none⟩ := by
  refine ⟨?_, ?_, ?_⟩
  · show pySplitCommaStr "" = [""]
    decide
  · show pySplitCommaStr defaultRecipients = _
    decide
  · show pySplitCommaStr "" ≠ pySplitCommaStr defaultRecipients
    decide

/-- C7 counterexample: with `GMAIL_USER` present in the environment but equal
to `""` (and a non-empty password), `send_email` still raises the
configuration error, refuting "raised only when a credential is absent" and
"with both credentials present, no configuration error is raised". -/
theorem send_email_error_despite_present :
    (send_email ⟨some "", some "secret", none⟩ "subj" "body").2 = some configErrorMsg ∧
    (⟨some "", some "secret", none⟩ : PyEnv).gmailUser ≠ none ∧
    (⟨some "", some "secret", none⟩ : PyEnv).gmailPass ≠ none := by
  decide

/-- C7 amended: `send_email` raises the configuration error exactly when a
sender credential is unset or empty (Python-falsy); on that error no message
is built and no SMTP step runs; with both credentials non-empty no
configuration error is raised. -/
theorem send_email_credential_check (env : PyEnv) (s b : String) :
    ((send_email env s b).2 = some configErrorMsg ↔
      pyTruthy env.gmailUser = false ∨ pyTruthy env.gmailPass = false) ∧
    ((send_email env s b).2 = some configErrorMsg → (send_email env s b).1 = []) ∧
    (pyTruthy env.gmailUser = true → pyTruthy env.gmailPass = true →
      (send_email env s b).2 = none) := by
  rcases hu : pyTruthy env.gmailUser <;> rcases hp : pyTruthy env.gmailPass <;>
    simp [send_email, hu, hp]

/-- C7 witness: at concrete environments, the error path performs no action
and the fully-credentialed path raises no configuration error. -/
theorem send_email_credential_check_witness :
    (send_email ⟨none, some "p", none⟩ "s" "b").1 = [] ∧
    (send_email ⟨some "u", some "p", none⟩ "s" "b").2 = none :=
  ⟨(send_email_credential_check ⟨none, some "p", none⟩ "s" "b").2.1 (by decide),
    (send_email_credential_check ⟨some "u", some "p", none⟩ "s" "b").2.2
      (by decide) (by decide)⟩

/-- C8: every run of `main` writes the new snapshot strictly before the email
send, and at the moment of any send the snapshot file already holds today's
bytes — the prior baseline is gone even if the send then fails. -/
theorem snapshot_written_before_send (btd : ExcelBytes → DF) (ex : Bool)
    (oldB newB : ExcelBytes) (today : String) :
    (∃ i j, i < j ∧
      (main_trace btd ex oldB newB today).get? i =
        some (MainEffect.writeSnapshot newB) ∧
      ∃ s b, (main_trace btd ex oldB newB today).get? j =
        some (MainEffect.sendEmail s b)) ∧
    (∀ k s b,
      (main_trace btd ex oldB newB today).get? k =
        some (MainEffect.sendEmail s b) →
      snapshotAfter (if ex then some oldB else none)
        ((main_trace btd ex oldB newB today).take k) = some newB) := by
  cases ex with
  | false =>
    refine ⟨⟨1, 2, by omega, by simp [main_trace], ?_⟩, ?_⟩
    · exact ⟨"[NERC One Stop Shop] Initial snapshot stored (" ++ today ++ ")",
        "This is the first run of the NERC One Stop Shop tracker.\n" ++
          "Today's file has been stored as the baseline. No diff to report yet.\n",
        by simp [main_trace]⟩
    · intro k s b h
      match k with
      | 0 => simp [main_trace] at h
      | 1 => simp [main_trace] at h
      | 2 => simp [main_trace, snapshotAfter, applyEffect]
      | n + 3 => simp [main_trace] at h
  | true =>
    refine ⟨⟨2, 3, by omega, by simp [main_trace], ?_⟩, ?_⟩
    · exact ⟨(if mainChanged (build_diff_report btd oldB newB 20) = true
          then "[NERC One Stop Shop] Changes detected for " ++ today
          else "[NERC One Stop Shop] No changes detected for " ++ today),
        "NERC One Stop Shop daily check for " ++ today ++ ".\n\n" ++
          build_diff_report btd oldB newB 20 ++
          "\n\n--\nThis email was generated automatically by your NERC tracking bot.",
        by simp [main_trace]⟩
    · intro k s b h
      match k with
      | 0 => simp [main_trace] at h
      | 1 => simp [main_trace] at h
      | 2 => simp [main_trace] at h
      | 3 => simp [main_trace, snapshotAfter, applyEffect]
      | n + 4 => simp [main_trace] at h

/-- C8 witness: on a concrete first run, at the index of the email send the
snapshot file already contains the downloaded bytes. -/
theorem snapshot_written_before_send_witness :
    snapshotAfter none
      ((main_trace (fun _ => []) false [0] [1] "2026-10-12").take 2) = some [1] := by
  have h := (snapshot_written_before_send (fun _ => []) false [0] [1] "2026-10-12").2 2
    "[NERC One Stop Shop] Initial snapshot stored (2026-10-12)"
    ("This is the first run of the NERC One Stop Shop tracker.\n" ++
      "Today's file has been stored as the baseline. No diff to report yet.\n")
    (by decide)
  simpa using h

/-- C6: `build_diff_report` is a function of the two row sets only — any two
runs over the same pair of datasets (rows in any order) produce identical
report text, the added/removed samples being sorted before rendering. -/
theorem diff_report_deterministic (df1 df1' df2 df2' : DF) (N : Nat)
    (h1 : df1.Perm df1') (h2 : df2.Perm df2') :
    compute_row_set df1 = compute_row_set df1' ∧
    build_diff_report_df df1 df2 N = build_diff_report_df df1' df2' N := by
  have e1 : compute_row_set df1 = compute_row_set df1' :=
    List.toFinset_eq_of_perm _ _ (h1.map computeRowTuple)
  have e2 : compute_row_set df2 = compute_row_set df2' :=
    List.toFinset_eq_of_perm _ _ (h2.map computeRowTuple)
  exact ⟨e1, by rw [build_diff_report_df, build_diff_report_df, e1, e2]⟩

/-- C3: with more than `N` rows in a section's set, the section body is
exactly the first `N` sorted rows rendered verbatim followed by one
truncation line stating the remaining count `card - N`; with at most `N`
rows, the body is exactly every row rendered, with no truncation line. -/
theorem diff_sample_cap (s : Finset Row) (kind : String) (N : Nat) :
    (N < s.card →
      sectionLines kind s N =
        ((sortRows s).take N).map renderRow ++ [truncLine kind s.card N] ∧
      (((sortRows s).take N).map renderRow).length = N ∧
      truncLine kind s.card N =
        "... (" ++ Nat.repr (s.card - N) ++ " more " ++ kind ++ " rows)") ∧
    (s.card ≤ N →
      sectionLines kind s N = (sortRows s).map renderRow ∧
      ∀ r ∈ s, renderRow r ∈ (sortRows s).map renderRow) := by
  have hlen : (sortRows s).length = s.card := Finset.length_sort _
  constructor
  · intro hN
    have hcond : N - 0 < (sortRows s).length := by omega
    refine ⟨?_, ?_, rfl⟩
    · rw [sectionLines, sampleLoop_eq_take, if_pos hcond, Nat.sub_zero]
    · rw [List.length_map, List.length_take]
      omega
  · intro hN
    have hcond : ¬(N - 0 < (sortRows s).length) := by omega
    have htake : (sortRows s).take N = sortRows s :=
      List.take_of_length_le (by omega)
    refine ⟨?_, ?_⟩
    · rw [sectionLines, sampleLoop_eq_take, if_neg hcond, Nat.sub_zero, htake,
        List.append_nil]
    · intro r hr
      exact List.mem_map_of_mem renderRow ((Finset.mem_sort _).2 hr)

/-- C3 witness: a one-row section with cap `0` is one truncation line after
zero rendered rows; with cap `5` it is exactly the rendered row. -/
theorem diff_sample_cap_witness :
    sectionLines "added" {(["a"] : Row)} 0 =
      ((sortRows {(["a"] : Row)}).take 0).map renderRow ++
        [truncLine "added" ({(["a"] : Row)} : Finset Row).card 0] ∧
    sectionLines "removed" {(["a"] : Row)} 5 =
      (sortRows {(["a"] : Row)}).map renderRow :=
  ⟨((diff_sample_cap {(["a"] : Row)} "added" 0).1 (by decide)).1,
    ((diff_sample_cap {(["a"] : Row)} "removed" 5).2 (by decide)).1⟩

/-- C4: diffing the same snapshot bytes against themselves gives empty added
and removed sets and a report that carries the exact sentinel line. -/
theorem self_diff_no_changes (btd : ExcelBytes → DF) (b : ExcelBytes) (N : Nat) :
    addedSet (compute_row_set (btd b)) (compute_row_set (btd b)) = ∅ ∧
    removedSet (compute_row_set (btd b)) (compute_row_set (btd b)) = ∅ ∧
    sentinelLine ∈
      buildDiffLines (compute_row_set (btd b)) (compute_row_set (btd b)) N ∧
    strIn sentinelLine (build_diff_report btd b b N) = true := by
  have ha : addedSet (compute_row_set (btd b)) (compute_row_set (btd b)) = ∅ :=
    Finset.sdiff_self _
  have hr : removedSet (compute_row_set (btd b)) (compute_row_set (btd b)) = ∅ :=
    Finset.sdiff_self _
  have hmem : sentinelLine ∈
      buildDiffLines (compute_row_set (btd b)) (compute_row_set (btd b)) N := by
    unfold buildDiffLines
    rw [ha, hr]
    simp [Finset.not_nonempty_empty]
  refine ⟨ha, hr, hmem, ?_⟩
  rw [strIn_iff]
  exact line_infix_pyJoin _ _ hmem

/-- Any line of a report section is a rendered row of the section's set or
its truncation line. -/
theorem mem_sectionLines {kind : String} {s : Finset Row} {N : Nat} {l : String}
    (h : l ∈ sectionLines kind s N) :
    (∃ r ∈ s, l = renderRow r) ∨ l = truncLine kind s.card N := by
  rw [sectionLines, sampleLoop_eq_take] at h
  rcases List.mem_append.1 h with h1 | h2
  · obtain ⟨r, hr, rfl⟩ := List.mem_map.1 h1
    exact Or.inl ⟨r, (Finset.mem_sort _).1 (List.mem_of_mem_take hr), rfl⟩
  · split at h2
    · rcases List.mem_cons.1 h2 with rfl | h'
      · exact Or.inr rfl
      · exact absurd h' (List.not_mem_nil l)
    · exact absurd h2 (List.not_mem_nil l)

/-- Every line of `build_diff_report` is one of: a count line, a blank line,
a section header, a rendered row of one of the two row sets, a truncation
line, or — only when both diff sets are empty — the sentinel line. -/
theorem mem_buildDiffLines {A B : Finset Row} {N : Nat} {l : String}
    (h : l ∈ buildDiffLines A B N) :
    l = "Total rows yesterday: " ++ Nat.repr A.card ∨
    l = "Total rows today    : " ++ Nat.repr B.card ∨
    l = "Rows added          : " ++ Nat.repr (addedSet A B).card ∨
    l = "Rows removed        : " ++ Nat.repr (removedSet A B).card ∨
    l = "" ∨
    l = "=== Added rows (sample) ===" ∨
    l = "=== Removed rows (sample) ===" ∨
    (∃ r ∈ A ∪ B, l = renderRow r) ∨
    l = truncLine "added" (addedSet A B).card N ∨
    l = truncLine "removed" (removedSet A B).card N ∨
    (addedSet A B = ∅ ∧ removedSet A B = ∅ ∧ l = sentinelLine) := by
  unfold buildDiffLines countLines at h
  rcases List.mem_append.1 h with h1 | hsent
  rcases List.mem_append.1 h1 with h2 | hrem
  rcases List.mem_append.1 h2 with hcount | hadd
  · -- count lines and blank line
    rcases List.mem_cons.1 hcount with rfl | hc
    · tauto
    rcases List.mem_cons.1 hc with rfl | hc
    · tauto
    rcases List.mem_cons.1 hc with rfl | hc
    · tauto
    rcases List.mem_cons.1 hc with rfl | hc
    · tauto
    rcases List.mem_cons.1 hc with rfl | hc
    · tauto
    · exact absurd hc (List.not_mem_nil l)
  · -- added section
    split at hadd
    case isTrue =>
      rcases List.mem_cons.1 hadd with rfl | hs
      · tauto
      rcases List.mem_append.1 hs with hs1 | hs2
      · rcases mem_sectionLines hs1 with ⟨r, hr, rfl⟩ | rfl
        · exact Or.inr (Or.inr (Or.inr (Or.inr (Or.inr (Or.inr (Or.inr (Or.inl
            ⟨r, Finset.mem_union_right A (Finset.sdiff_subset hr), rfl⟩)))))))
        · tauto
      · rcases List.mem_cons.1 hs2 with rfl | hs3
        · tauto
        · exact absurd hs3 (List.not_mem_nil l)
    case isFalse => exact absurd hadd (List.not_mem_nil l)
  · -- removed section
    split at hrem
    case isTrue =>
      rcases List.mem_cons.1 hrem with rfl | hs
      · tauto
      · rcases mem_sectionLines hs with ⟨r, hr, rfl⟩ | rfl
        · exact Or.inr (Or.inr (Or.inr (Or.inr (Or.inr (Or.inr (Or.inr (Or.inl
            ⟨r, Finset.mem_union_left B (Finset.sdiff_subset hr), rfl⟩)))))))
        · tauto
    case isFalse => exact absurd hrem (List.not_mem_nil l)
  · -- sentinel slot
    split at hsent
    case isTrue h' =>
      rcases List.mem_cons.1 hsent with rfl | hs
      · refine Or.inr (Or.inr (Or.inr (Or.inr (Or.inr (Or.inr (Or.inr (Or.inr
          (Or.inr (Or.inr ⟨?_, ?_, rfl⟩)))))))))
        · exact Finset.not_nonempty_iff_eq_empty.1 h'.1
        · exact Finset.not_nonempty_iff_eq_empty.1 h'.2
      · exact absurd hs (List.not_mem_nil l)
    case isFalse => exact absurd hsent (List.not_mem_nil l)

/-- C2 counterexample: with previous set `∅` and current set containing the
single-cell row whose text is the sentinel itself, the diff is non-empty yet
the report contains the sentinel line verbatim and `main`'s substring test
classifies the run as unchanged. -/
theorem sentinel_spoofed_by_row :
    sentinelLine ∈ buildDiffLines ∅ {[sentinelLine]} 20 ∧
    addedSet ∅ {[sentinelLine]} ≠ ∅ ∧
    mainChanged (reportOfSets ∅ {[sentinelLine]} 20) = false := by
  have hadd : addedSet ∅ {[sentinelLine]} = {[sentinelLine]} := Finset.sdiff_empty
  have hrem : removedSet ∅ {[sentinelLine]} = ∅ := Finset.empty_sdiff _
  have hsec : sectionLines "added" {[sentinelLine]} 20 = [renderRow [sentinelLine]] := by
    rw [sectionLines, sortRows, Finset.sort_singleton, Finset.card_singleton]
    simp [sampleLoop]
  have hmem : sentinelLine ∈ buildDiffLines ∅ {[sentinelLine]} 20 := by
    unfold buildDiffLines
    rw [hadd, hrem, hsec]
    simp [Finset.singleton_nonempty, Finset.not_nonempty_empty, renderRow, pyJoin]
  refine ⟨hmem, ?_, ?_⟩
  · rw [hadd]; exact Finset.singleton_ne_empty _
  · have h3 : strIn needleText (reportOfSets ∅ {[sentinelLine]} 20) = true := by
      rw [strIn_iff]
      exact List.IsInfix.trans
        (prefix_to_sub (List.isPrefixOf_iff_prefix.1 (by decide)))
        (line_infix_pyJoin _ _ hmem)
    rw [mainChanged, h3]
    rfl

/-- C2 amended: provided no row of either set renders to text containing the
sentinel needle `"No row-level changes detected"`, the report carries the
sentinel line iff both diff sets are empty, and `main`'s substring-based
changed flag is true iff the diff is non-empty. Without that proviso the
equivalence fails (see the counterexample). -/
theorem report_sentinel_iff_unchanged (A B : Finset Row) (N : Nat)
    (hrows : ∀ r ∈ A ∪ B, strIn needleText (renderRow r) = false) :
    (sentinelLine ∈ buildDiffLines A B N ↔
      addedSet A B = ∅ ∧ removedSet A B = ∅) ∧
    (mainChanged (reportOfSets A B N) = true ↔
      ¬(addedSet A B = ∅ ∧ removedSet A B = ∅)) := by
  by_cases hv : addedSet A B = ∅ ∧ removedSet A B = ∅
  · obtain ⟨ha, hr⟩ := hv
    have hmem : sentinelLine ∈ buildDiffLines A B N := by
      unfold buildDiffLines
      rw [ha, hr]
      simp [Finset.not_nonempty_empty]
    have hin : strIn needleText (reportOfSets A B N) = true := by
      rw [strIn_iff]
      exact List.IsInfix.trans
        (prefix_to_sub (List.isPrefixOf_iff_prefix.1 (by decide)))
        (line_infix_pyJoin _ _ hmem)
    have hchanged : mainChanged (reportOfSets A B N) = false := by
      rw [mainChanged, hin]; rfl
    refine ⟨⟨fun _ => ⟨ha, hr⟩, fun _ => hmem⟩, ?_⟩
    rw [hchanged]
    simp [ha, hr]
  · have hlines : ∀ l ∈ buildDiffLines A B N, ¬ needleText.data <:+: l.data := by
      intro l hl
      rcases mem_buildDiffLines hl with h|h|h|h|h|h|h|h|h|h|h
      · subst h
        rw [String.data_append]
        exact needle_not_infix_of_N_free (N_free_append (by decide) (repr_no_N _))
      · subst h
        rw [String.data_append]
        exact needle_not_infix_of_N_free (N_free_append (by decide) (repr_no_N _))
      · subst h
        rw [String.data_append]
        exact needle_not_infix_of_N_free (N_free_append (by decide) (repr_no_N _))
      · subst h
        rw [String.data_append]
        exact needle_not_infix_of_N_free (N_free_append (by decide) (repr_no_N _))
      · subst h
        exact needle_not_infix_of_N_free (by decide)
      · subst h
        exact needle_not_infix_of_N_free (by decide)
      · subst h
        exact needle_not_infix_of_N_free (by decide)
      · obtain ⟨r, hr, rfl⟩ := h
        intro hinf
        have hfalse := hrows r hr
        rw [show strIn needleText (renderRow r) = true from (strIn_iff _ _).2 hinf]
          at hfalse
        exact Bool.true_eq_false ▸ hfalse ▸ rfl
      · subst h
        rw [truncLine, String.data_append, String.data_append, String.data_append,
          String.data_append]
        exact needle_not_infix_of_N_free
          (N_free_append (N_free_append (N_free_append
            (N_free_append (by decide) (repr_no_N _)) (by decide)) (by decide))
            (by decide))
      · subst h
        rw [truncLine, String.data_append, String.data_append, String.data_append,
          String.data_append]
        exact needle_not_infix_of_N_free
          (N_free_append (N_free_append (N_free_append
            (N_free_append (by decide) (repr_no_N _)) (by decide)) (by decide))
            (by decide))
      · exact absurd ⟨h.1, h.2.1⟩ hv
    have hnosent : sentinelLine ∉ buildDiffLines A B N := by
      intro hmem
      exact hlines sentinelLine hmem
        (prefix_to_sub (List.isPrefixOf_iff_prefix.1 (by decide)))
    have hchanged : mainChanged (reportOfSets A B N) = true := by
      have hfalse : strIn needleText (reportOfSets A B N) = false := by
        rcases hb : strIn needleText (reportOfSets A B N)
        · rfl
        · obtain ⟨l, hl, hinf⟩ :=
            (infix_pyJoin_iff (by decide) (by decide) (buildDiffLines A B N)).1
              ((strIn_iff _ _).1 hb)
          exact absurd hinf (hlines l hl)
      rw [mainChanged, hfalse]
      rfl
    refine ⟨⟨fun hmem => absurd hmem hnosent, fun hv' => absurd hv' hv⟩, ?_⟩
    rw [hchanged]
    simp [hv]

/-- C2 witness: on two concrete benign singleton row sets the sentinel
equivalence and the changed-flag agreement hold. -/
theorem report_sentinel_iff_unchanged_witness :
    (∀ r ∈ ({[("x" : String)]} : Finset Row) ∪ {[("y" : String)]},
      strIn needleText (renderRow r) = false) ∧
    ((sentinelLine ∈
        buildDiffLines ({[("x" : String)]} : Finset Row) {[("y" : String)]} 20 ↔
      addedSet ({[("x" : String)]} : Finset Row) {[("y" : String)]} = ∅ ∧
        removedSet ({[("x" : String)]} : Finset Row) {[("y" : String)]} = ∅)) :=
  ⟨by decide,
    (report_sentinel_iff_unchanged {[("x" : String)]} {[("y" : String)]} 20
      (by decide)).1⟩

/-- C6 witness: two concrete permuted datasets yield byte-identical reports. -/
theorem diff_report_deterministic_witness :
    build_diff_report_df [[some "a"], [some "b"]] [[some "c"]] 20 =
      build_diff_report_df [[some "b"], [some "a"]] [[some "c"]] 20 :=
  (diff_report_deterministic _ _ _ _ 20 (by decide) (by decide)).2

end NercTracker
